import Mathlib

/-!
# Verification of the dashboard snapshot module

A shallow embedding, in Lean 4, of `dashboard/modules/snapshot/snapshot_head.py`
(the `APIHead` dashboard module): the cluster-state snapshot aggregator, its
Actor × Deployment join, the deployment snapshot resolver, the activity
classifier, and the actor-kill passthrough endpoint.

Python dictionaries are modelled as association lists (`List (String × α)`)
with Python `dict` semantics: `d[k] = v` replaces the value of an existing key
in place (keys are unique in every dict the module builds) or appends a new
binding at the end, and lookup returns the first binding.  Python `dict`
equality is extensional (same key → value mapping), which is what the
`dictGet`-level lemmas below capture.

Asynchronous methods are modelled as pure functions of the values their
upstream calls return; a fetch that raises is modelled as `Except.error`.
-/

namespace SnapshotHead

/-- Lookup in a Python dict modelled as an association list: the (unique)
binding of key `k`, `none` when `k` is absent.  Models `d[k]` / `k in d` /
`d.get(k)`. -/
def dictGet {α : Type} (d : List (String × α)) (k : String) : Option α :=
  match d with
  | [] => none
  | p :: rest => if p.1 = k then some p.2 else dictGet rest k

/-- Python `d[k] = v` on a dict without key duplication: replace the first
binding of `k` in place, else append `(k, v)` at the end (Python dicts keep
insertion order and updating an existing key keeps its position). -/
def dictInsert {α : Type} (d : List (String × α)) (k : String) (v : α) :
    List (String × α) :=
  match d with
  | [] => [(k, v)]
  | p :: rest => if p.1 = k then (k, v) :: rest else p :: dictInsert rest k v

/-- In-place update of the value bound to `k` (models mutating
`d[k]`'s sub-structure, e.g. `actors[id]["metadata"]["serve"] = m`). -/
def dictModify {α : Type} (d : List (String × α)) (k : String) (f : α → α) :
    List (String × α) :=
  match d with
  | [] => []
  | p :: rest => if p.1 = k then (p.1, f p.2) :: rest else p :: dictModify rest k f

@[simp] theorem dictGet_nil {α : Type} (k : String) :
    dictGet ([] : List (String × α)) k = none := rfl

theorem dictGet_dictInsert {α : Type} (d : List (String × α)) (kk k : String)
    (v : α) :
    dictGet (dictInsert d kk v) k = if kk = k then some v else dictGet d k := by
  induction d with
  | nil => by_cases h : kk = k <;> simp [dictInsert, dictGet, h]
  | cons p rest ih =>
    by_cases h1 : p.1 = kk
    · by_cases h2 : kk = k
      · simp [dictInsert, dictGet, h1, h2]
      · have h3 : ¬ p.1 = k := fun hh => h2 (h1.symm.trans hh)
        simp [dictInsert, dictGet, h1, h2, h3]
    · by_cases h2 : p.1 = k
      · have h3 : ¬ kk = k := fun hh => h1 (h2.trans hh.symm)
        have h4 : ¬ k = kk := fun hh => h1 (h2.trans hh)
        simp [dictInsert, dictGet, h1, h2, h3, h4]
      · simp [dictInsert, dictGet, h1, h2, ih]

theorem dictGet_dictModify {α : Type} (d : List (String × α)) (kk k : String)
    (f : α → α) :
    dictGet (dictModify d kk f) k =
      if kk = k then (dictGet d k).map f else dictGet d k := by
  induction d with
  | nil => by_cases h : kk = k <;> simp [dictModify, dictGet, h]
  | cons p rest ih =>
    by_cases h1 : p.1 = kk
    · by_cases h2 : kk = k
      · simp [dictModify, dictGet, h1, h2]
      · have h3 : ¬ p.1 = k := fun hh => h2 (h1.symm.trans hh)
        simp [dictModify, dictGet, h1, h2, h3]
    · by_cases h2 : p.1 = k
      · have h3 : ¬ kk = k := fun hh => h1 (h2.trans hh.symm)
        have h4 : ¬ k = kk := fun hh => h1 (h2.trans hh)
        simp [dictModify, dictGet, h1, h2, h3, h4]
      · simp [dictModify, dictGet, h1, h2, ih]

/-- Overwriting the same key twice keeps only the second value. -/
theorem dictInsert_overwrite {α : Type} (d : List (String × α)) (k : String)
    (v1 v2 : α) :
    dictInsert (dictInsert d k v1) k v2 = dictInsert d k v2 := by
  induction d with
  | nil => simp [dictInsert]
  | cons p rest ih =>
    by_cases h : p.1 = k
    · simp [dictInsert, h]
    · simp [dictInsert, h, ih]

/-!
## SHA-1

`get_serve_info` re-keys the merged deployment mapping with
`hashlib.sha1(name.encode()).hexdigest()`.  The Python standard library's
SHA-1 and UTF-8 encoding are reimplemented here as executable Lean functions
over `Nat` (all 32-bit arithmetic is explicit `% 2 ^ 32`).
-/

/-- UTF-8 encoding of one character (code point → byte list), as performed by
Python's `str.encode()`. -/
def utf8EncodeChar (c : Char) : List Nat :=
  let n := c.toNat
  if n < 0x80 then [n]
  else if n < 0x800 then
    [0xC0 ||| (n >>> 6), 0x80 ||| (n &&& 0x3F)]
  else if n < 0x10000 then
    [0xE0 ||| (n >>> 12), 0x80 ||| ((n >>> 6) &&& 0x3F), 0x80 ||| (n &&& 0x3F)]
  else
    [0xF0 ||| (n >>> 18), 0x80 ||| ((n >>> 12) &&& 0x3F),
     0x80 ||| ((n >>> 6) &&& 0x3F), 0x80 ||| (n &&& 0x3F)]

/-- UTF-8 encoding of a string: Python `name.encode()`. -/
def utf8Encode (s : String) : List Nat :=
  (s.data.map utf8EncodeChar).flatten

/-- Rotate a 32-bit word left by `n` bits. -/
def rotl32 (n x : Nat) : Nat :=
  (((x <<< n) % 2 ^ 32) ||| (x >>> (32 - n)))

/-- `count` bytes of `v` in big-endian order. -/
def beBytes : Nat → Nat → List Nat
  | 0, _ => []
  | n + 1, v => beBytes n (v / 256) ++ [v % 256]

/-- A big-endian byte list read as one number. -/
def beWord (bytes : List Nat) : Nat :=
  bytes.foldl (fun acc b => acc * 256 + b) 0

/-- SHA-1 message padding: append `0x80`, zero bytes up to 56 mod 64, then the
message bit length as 8 big-endian bytes. -/
def sha1Pad (msg : List Nat) : List Nat :=
  let L := msg.length
  let zeros := (120 - ((L + 1) % 64)) % 64
  msg ++ [0x80] ++ List.replicate zeros 0 ++ beBytes 8 (8 * L)

/-- Split a padded message into 64-byte chunks. -/
def sha1Chunks (l : List Nat) : List (List Nat) :=
  (List.range (l.length / 64)).map (fun i => ((l.drop (64 * i)).take 64))

/-- The 16 initial 32-bit words of one 64-byte chunk. -/
def chunkWords (chunk : List Nat) : List Nat :=
  (List.range 16).map (fun i => beWord ((chunk.drop (4 * i)).take 4))

/-- Extend 16 words to the 80-word SHA-1 schedule. -/
def sha1Extend (w : List Nat) : List Nat :=
  (List.range 64).foldl
    (fun ws _ =>
      let n := ws.length
      ws ++ [rotl32 1 (((ws.getD (n - 3) 0) ^^^ (ws.getD (n - 8) 0)) ^^^
                       ((ws.getD (n - 14) 0) ^^^ (ws.getD (n - 16) 0)))])
    w

/-- One SHA-1 round: round index `i`, schedule word `wi`, state `(a,b,c,d,e)`. -/
def sha1Round (i wi : Nat) (st : Nat × Nat × Nat × Nat × Nat) :
    Nat × Nat × Nat × Nat × Nat :=
  let (a, b, c, d, e) := st
  let f :=
    if i < 20 then (b &&& c) ||| ((b ^^^ 0xFFFFFFFF) &&& d)
    else if i < 40 then (b ^^^ c) ^^^ d
    else if i < 60 then ((b &&& c) ||| (b &&& d)) ||| (c &&& d)
    else (b ^^^ c) ^^^ d
  let k :=
    if i < 20 then 0x5A827999
    else if i < 40 then 0x6ED9EBA1
    else if i < 60 then 0x8F1BBCDC
    else 0xCA62C1D6
  let temp := (rotl32 5 a + f + e + k + wi) % 2 ^ 32
  (temp, a, rotl32 30 b, c, d)

/-- Process one 64-byte chunk, updating the five hash words. -/
def sha1ProcessChunk (h : Nat × Nat × Nat × Nat × Nat) (chunk : List Nat) :
    Nat × Nat × Nat × Nat × Nat :=
  let w := sha1Extend (chunkWords chunk)
  let st := (List.range 80).foldl (fun st i => sha1Round i (w.getD i 0) st) h
  let (h0, h1, h2, h3, h4) := h
  let (a, b, c, d, e) := st
  ((h0 + a) % 2 ^ 32, (h1 + b) % 2 ^ 32, (h2 + c) % 2 ^ 32,
   (h3 + d) % 2 ^ 32, (h4 + e) % 2 ^ 32)

/-- SHA-1 of a byte list: the five 32-bit hash words. -/
def sha1Words (msg : List Nat) : Nat × Nat × Nat × Nat × Nat :=
  (sha1Chunks (sha1Pad msg)).foldl sha1ProcessChunk
    (0x67452301, 0xEFCDAB89, 0x98BADCFE, 0x10325476, 0xC3D2E1F0)

/-- Lower-case hex digit. -/
def hexDigit (n : Nat) : Char :=
  if n < 10 then Char.ofNat (48 + n) else Char.ofNat (87 + n)

/-- Eight lower-case hex digits of a 32-bit word. -/
def hexWord (v : Nat) : String :=
  String.mk ((List.range 8).map (fun i => hexDigit ((v >>> (4 * (7 - i))) &&& 15)))

/-- `hashlib.sha1(s.encode()).hexdigest()`: the 40-character lower-case hex
digest of the UTF-8 encoding of `s`. -/
def sha1_hexdigest (s : String) : String :=
  let (h0, h1, h2, h3, h4) := sha1Words (utf8Encode s)
  hexWord h0 ++ hexWord h1 ++ hexWord h2 ++ hexWord h3 ++ hexWord h4

/-!
## Data model
-/

/-- A JSON value (numbers restricted to integers; the module only copies
parsed JSON documents around, it never computes on them). -/
inductive Json where
  | null
  | bool (b : Bool)
  | num (n : Int)
  | str (s : String)
  | arr (elems : List Json)
  | obj (fields : List (String × Json))

/-- One replica entry of a deployment snapshot: the value of
`deployment_info["actors"][replica_actor_id]`, read by `get_actor_info`
(snapshot_head.py lines 239-244). -/
structure ReplicaInfo where
  replica_tag : String
  version : String
deriving DecidableEq, Repr

/-- One deployment's info object inside a controller-written snapshot value:
a `name` and a map replica actor id → `ReplicaInfo`
(snapshot_head.py lines 238-244). -/
structure DeploymentInfo where
  name : String
  actors : List (String × ReplicaInfo)
deriving DecidableEq, Repr

/-- The value attached under the `"serve"` key of an actor's metadata by the
Actor × Deployment join (snapshot_head.py lines 241-245). -/
structure ServeMetadata where
  replica_tag : String
  deployment_name : String
  version : String
deriving DecidableEq, Repr

/-!
## Deployment Snapshot Resolver: `get_serve_info` (snapshot_head.py 248-289)

The KV reads happen against Ray's internal KV store under the serve
namespace.  The store is modelled by the list of keys returned by
`_internal_kv_list(SERVE_CONTROLLER_NAME, ...)` (in scan order) and a lookup
function `kvget` for `_internal_kv_get`.  A stored byte string is modelled by
what `get_deployments` observes of it: empty (falsy in Python), a byte string
that `json.loads` parses to a JSON object of deployment name → info, or a
non-empty byte string that is not valid JSON (on which `json.loads` raises
`json.JSONDecodeError`).  JSON documents that parse but are not objects are
outside the scope of the modelled claims.
-/

/-- A raw serve-namespace KV value as observed by `get_deployments`. -/
inductive RawVal where
  | empty
  | obj (entries : List (String × DeploymentInfo))
  | malformed
deriving DecidableEq, Repr

/-- Errors raised inside the modelled snapshot code. -/
inductive SnapshotErr where
  /-- `json.JSONDecodeError` raised by `json.loads`. -/
  | jsonDecode
deriving DecidableEq, Repr

/-- `val_bytes = _internal_kv_get(key, ...) or "{}".encode("utf-8")`
(snapshot_head.py 271-273): `None` (missing key) and `b""` are falsy, so both
are replaced by the literal `b"{}"`, which parses to the empty object. -/
def valOrDefault (v : Option RawVal) : RawVal :=
  match v with
  | none => RawVal.obj []
  | some RawVal.empty => RawVal.obj []
  | some r => r

/-- `json.loads(val_bytes.decode("utf-8"))` (snapshot_head.py 274): parsing a
valid JSON object succeeds, anything malformed raises (the empty byte string
is not valid JSON, but it never reaches `json.loads` after `valOrDefault`). -/
def json_loads (v : RawVal) : Except SnapshotErr (List (String × DeploymentInfo)) :=
  match v with
  | RawVal.obj es => Except.ok es
  | RawVal.empty => Except.error SnapshotErr.jsonDecode
  | RawVal.malformed => Except.error SnapshotErr.jsonDecode

/-- The loop of snapshot_head.py 270-274: fetch and parse each matching key,
building `deployments_per_controller`; the first `json.loads` failure
propagates out of `get_deployments`. -/
def loadAll (kvget : String → Option RawVal) :
    List String → Except SnapshotErr (List (List (String × DeploymentInfo)))
  | [] => Except.ok []
  | k :: ks => do
    let d ← json_loads (valOrDefault (kvget k))
    let rest ← loadAll kvget ks
    Except.ok (d :: rest)

/-- Python `needle in hay` on strings: substring containment
(`SERVE_SNAPSHOT_KEY in str(k)`, snapshot_head.py 266). -/
def strContains (needle hay : String) : Bool :=
  (List.range (hay.data.length + 1)).any
    (fun i => needle.data.isPrefixOf (hay.data.drop i))

/-- Modelled from the spec: `SERVE_CONTROLLER_NAME` is imported from
`ray.serve.constants`, which is not under src/; the spec calls it "a known
controller-name prefix" used for the KV scan.  Its exact value is irrelevant
to the claims (the key list is a parameter of `get_serve_info`). -/
def SERVE_CONTROLLER_NAME : String := "SERVE_CONTROLLER_ACTOR"

/-- Modelled from the spec: `SERVE_SNAPSHOT_KEY` is imported from
`ray.serve.controller` (`SNAPSHOT_KEY`), not under src/; the spec calls it
"a known snapshot marker substring" which matching keys must contain. -/
def SERVE_SNAPSHOT_KEY : String := "serve-deployments-snapshot"

/-- The dict comprehension `{k: v for d in deployments_per_controller
for k, v in d.items()}` (snapshot_head.py 276-278): fold every parsed object
into one dict, later bindings overwriting earlier ones on key collision. -/
def mergeDeployments (ds : List (List (String × DeploymentInfo))) :
    List (String × DeploymentInfo) :=
  ds.foldl (fun acc d => d.foldl (fun a p => dictInsert a p.1 p.2) acc) []

/-- The re-keying comprehension `{hashlib.sha1(name.encode()).hexdigest():
info for name, info in deployments.items()}` (snapshot_head.py 282-285). -/
def hashDeployments (d : List (String × DeploymentInfo)) :
    List (String × DeploymentInfo) :=
  d.foldl (fun acc p => dictInsert acc (sha1_hexdigest p.1) p.2) []

/-- `get_serve_info` / its inner `get_deployments` (snapshot_head.py 248-289),
as a function of the scanned serve-namespace key list (in scan order, as
returned by `_internal_kv_list`) and the KV lookup function.  Filters keys to
those containing the snapshot marker, fetches and parses each value, merges
all parsed objects (later keys in scan order win on collision) and re-keys
the merged mapping by the SHA-1 hex digest of each deployment name.  The
`except Exception: return {}` branch guarding the serve import (250-255) is
taken only when the serve subsystem is not installed and is not modelled. -/
def get_serve_info (serve_keys : List String) (kvget : String → Option RawVal) :
    Except SnapshotErr (List (String × DeploymentInfo)) := do
  let serve_snapshot_keys := serve_keys.filter (fun k => strContains SERVE_SNAPSHOT_KEY k)
  let deployments_per_controller ← loadAll kvget serve_snapshot_keys
  Except.ok (hashDeployments (mergeDeployments deployments_per_controller))

/-!
## Actor records and the Actor × Deployment join: `get_actor_info`
(snapshot_head.py 207-246)
-/

/-- One element of `reply.actor_table_data` (the GCS `GetAllActorInfo` reply),
carrying exactly the fields `get_actor_info` reads.  Identifiers are the hex
strings produced by `.hex()`; `state` is the enum name string produced by
`ActorTableData.ActorState.Name`; `runtime_env` is the (successfully) parsed
value of `json.loads(serialized_runtime_env)`; protobuf doubles in
`required_resources` are modelled as rationals (the module only copies
them). -/
structure ActorTableEntry where
  actor_id : String
  job_id : String
  state : String
  name : String
  ray_namespace : String
  runtime_env : Json
  start_time : Int
  end_time : Int
  is_detached : Bool
  required_resources : List (String × Rat)
  class_name : String
  worker_id : String
  raylet_id : String
  ip_address : String
  port : Int

/-- The per-actor output dict built at snapshot_head.py 216-234.  Field
`ray_namespace` carries the payload key `"namespace"` (a Lean keyword). -/
structure ActorEntry where
  job_id : String
  state : String
  name : String
  ray_namespace : String
  runtime_env : Json
  start_time : Int
  end_time : Int
  is_detached : Bool
  resources : List (String × Rat)
  actor_class : String
  current_worker_id : String
  current_raylet_id : String
  ip_address : String
  port : Int
  metadata : List (String × ServeMetadata)

/-- The `entry = {...}` dict of snapshot_head.py 216-234: copy the table
entry's fields and start with an empty `metadata` dict. -/
def mkEntry (e : ActorTableEntry) : ActorEntry :=
  { job_id := e.job_id
    state := e.state
    name := e.name
    ray_namespace := e.ray_namespace
    runtime_env := e.runtime_env
    start_time := e.start_time
    end_time := e.end_time
    is_detached := e.is_detached
    resources := e.required_resources
    actor_class := e.class_name
    current_worker_id := e.worker_id
    current_raylet_id := e.raylet_id
    ip_address := e.ip_address
    port := e.port
    metadata := [] }

/-- The `serve_metadata` dict built at snapshot_head.py 241-244 for a replica
of deployment `di`. -/
def mkServeMetadata (di : DeploymentInfo) (ri : ReplicaInfo) : ServeMetadata :=
  { replica_tag := ri.replica_tag
    deployment_name := di.name
    version := ri.version }

/-- `actors[replica_actor_id]["metadata"]["serve"] = serve_metadata`
(snapshot_head.py 245), restricted to the targeted entry. -/
def setServe (e : ActorEntry) (s : ServeMetadata) : ActorEntry :=
  { e with metadata := dictInsert e.metadata "serve" s }

/-- The body of the replica loop (snapshot_head.py 240-245): if the replica
actor id is a key of the actors dict, attach the serve metadata to that
actor; otherwise skip silently. -/
def joinStep (di : DeploymentInfo) (acc : List (String × ActorEntry))
    (p : String × ReplicaInfo) : List (String × ActorEntry) :=
  if (dictGet acc p.1).isSome then
    dictModify acc p.1 (fun e => setServe e (mkServeMetadata di p.2))
  else acc

/-- The replica loop `for replica_actor_id, actor_info in
deployment_info["actors"].items()` (snapshot_head.py 239-245). -/
def innerJoin (di : DeploymentInfo) (acc : List (String × ActorEntry)) :
    List (String × ActorEntry) :=
  di.actors.foldl (joinStep di) acc

/-- The deployment loop `for _, deployment_info in deployments.items()`
(snapshot_head.py 238-245): one full Actor × Deployment join pass over the
current actors dict. -/
def applyServeJoin (deployments : List (String × DeploymentInfo))
    (actors : List (String × ActorEntry)) : List (String × ActorEntry) :=
  deployments.foldl (fun acc p => innerJoin p.2 acc) actors

/-- One iteration of the actor loop as written in the source (snapshot_head.py
213-245): insert the entry built from `e` into the actors dict and then run a
full join pass over the actors inserted so far. -/
def actorLoopStep (deployments : List (String × DeploymentInfo))
    (a : List (String × ActorEntry)) (e : ActorTableEntry) :
    List (String × ActorEntry) :=
  applyServeJoin deployments (dictInsert a e.actor_id (mkEntry e))

/-- `get_actor_info` (snapshot_head.py 207-246), instrumented with the number
of `await self.get_serve_info()` calls it performs.  In the source, lines
237-245 (`deployments = await self.get_serve_info()` and the join loops) are
indented **inside** the `for actor_table_entry in reply.actor_table_data`
loop, so every iteration of the actor loop awaits the resolver once and then
re-runs the join over the actors inserted so far.  `get_serve_info` is a
deterministic read of the (frozen) KV store, so its result is the
`deployments` parameter, identical at every call; the second component counts
the calls. -/
def get_actor_info_run (deployments : List (String × DeploymentInfo))
    (reply : List ActorTableEntry) : List (String × ActorEntry) × Nat :=
  reply.foldl (fun st e => (actorLoopStep deployments st.1 e, st.2 + 1)) ([], 0)

/-- The actors dict returned by `get_actor_info` (snapshot_head.py 246). -/
def get_actor_info (deployments : List (String × DeploymentInfo))
    (reply : List ActorTableEntry) : List (String × ActorEntry) :=
  (get_actor_info_run deployments reply).1

/-- How many times `get_actor_info` awaits `self.get_serve_info()`. -/
def get_serve_info_calls (deployments : List (String × DeploymentInfo))
    (reply : List ActorTableEntry) : Nat :=
  (get_actor_info_run deployments reply).2

/-- The raw actor fetch alone: the actors dict as it stands after the
`actors[actor_id] = entry` inserts (snapshot_head.py 212-235), before any
join pass touches it. -/
def rawActors (reply : List ActorTableEntry) : List (String × ActorEntry) :=
  reply.foldl (fun a e => dictInsert a e.actor_id (mkEntry e)) []

/-- The serve metadata the join ends up attaching to actor id `k`, threaded
through an accumulator exactly like the two join loops: the **last** replica
entry with id `k`, in deployment-scan × replica order, wins. -/
def serveForIn (di : DeploymentInfo) (k : String)
    (init : Option ServeMetadata) : Option ServeMetadata :=
  di.actors.foldl
    (fun acc p => if p.1 = k then some (mkServeMetadata di p.2) else acc) init

/-- The serve metadata attached to actor id `k` by one full join pass over
`deployments`, `none` when no deployment references `k`. -/
def serveFor (deployments : List (String × DeploymentInfo)) (k : String) :
    Option ServeMetadata :=
  deployments.foldl (fun acc p => serveForIn p.2 k acc) none

/-- Attach an optional serve metadata to an entry. -/
def applyServe (o : Option ServeMetadata) (e : ActorEntry) : ActorEntry :=
  match o with
  | some s => setServe e s
  | none => e

/-!
## Characterization of the join at `dictGet` level
-/

theorem setServe_setServe (e : ActorEntry) (s t : ServeMetadata) :
    setServe (setServe e s) t = setServe e t := by
  simp [setServe, dictInsert_overwrite]

/-- Attaching through `Option.or`: attaching `o1` and then `o2` is attaching
`o2.or o1` (the later attachment wins). -/
theorem applyServe_or (o1 o2 : Option ServeMetadata) (e : ActorEntry) :
    applyServe o2 (applyServe o1 e) = applyServe (o2.or o1) e := by
  cases o2 <;> cases o1 <;> simp [applyServe, Option.or, setServe_setServe]

theorem applyServe_idem (o : Option ServeMetadata) (e : ActorEntry) :
    applyServe o (applyServe o e) = applyServe o e := by
  cases o <;> simp [applyServe, setServe_setServe]

/-- A left fold whose step only ever overrides its accumulator (in the sense
`g i p = (g none p).or i`) is a function of its initial value through
`Option.or`. -/
theorem foldl_or_init {β γ : Type} (g : Option γ → β → Option γ)
    (hg : ∀ (i : Option γ) (p : β), g i p = (g none p).or i)
    (l : List β) (init : Option γ) :
    l.foldl g init = (l.foldl g none).or init := by
  induction l generalizing init with
  | nil => simp [Option.or]
  | cons p rest ih =>
    simp only [List.foldl_cons]
    rw [ih (g init p), ih (g none p), hg init p, Option.or_assoc]

theorem serveForIn_init (di : DeploymentInfo) (k : String)
    (init : Option ServeMetadata) :
    serveForIn di k init = (serveForIn di k none).or init := by
  unfold serveForIn
  exact foldl_or_init _ (by intro i q; by_cases h : q.1 = k <;> simp [h, Option.or])
    di.actors init

theorem dictGet_joinStep (di : DeploymentInfo) (a : List (String × ActorEntry))
    (p : String × ReplicaInfo) (k : String) :
    dictGet (joinStep di a p) k =
      if p.1 = k then
        (dictGet a k).map (fun e => setServe e (mkServeMetadata di p.2))
      else dictGet a k := by
  unfold joinStep
  by_cases hs : (dictGet a p.1).isSome = true
  · rw [if_pos hs, dictGet_dictModify]
  · rw [if_neg hs]
    by_cases hp : p.1 = k
    · subst hp
      have hnone : dictGet a p.1 = none := by
        cases h : dictGet a p.1 with
        | none => rfl
        | some e => exact absurd (by simp [h]) hs
      simp [hnone]
    · simp [hp]

theorem dictGet_joinFold (di : DeploymentInfo) (l : List (String × ReplicaInfo))
    (a : List (String × ActorEntry)) (k : String) :
    dictGet (l.foldl (joinStep di) a) k =
      (dictGet a k).map
        (applyServe (l.foldl
          (fun acc p => if p.1 = k then some (mkServeMetadata di p.2) else acc)
          none)) := by
  induction l generalizing a with
  | nil =>
    simp only [List.foldl_nil]
    cases dictGet a k <;> simp [applyServe]
  | cons p rest ih =>
    simp only [List.foldl_cons]
    rw [ih (joinStep di a p), dictGet_joinStep]
    by_cases hp : p.1 = k
    · rw [if_pos hp, if_pos hp,
          foldl_or_init _
            (by intro i q; by_cases h : q.1 = k <;> simp [h, Option.or]) rest
            (some (mkServeMetadata di p.2))]
      cases ha : dictGet a k with
      | none => rfl
      | some e =>
        simp only [Option.map_some']
        simpa [applyServe] using
          applyServe_or (some (mkServeMetadata di p.2))
            (rest.foldl
              (fun acc q => if q.1 = k then some (mkServeMetadata di q.2) else acc)
              none) e
    · rw [if_neg hp, if_neg hp]

/-- What one replica loop does to the binding of `k`. -/
theorem dictGet_innerJoin (di : DeploymentInfo) (a : List (String × ActorEntry))
    (k : String) :
    dictGet (innerJoin di a) k =
      (dictGet a k).map (applyServe (serveForIn di k none)) :=
  dictGet_joinFold di di.actors a k

/-- Characterization of one full Actor × Deployment join pass: the binding of
every actor id `k` is transformed by attaching `serveFor deployments k`
(and in particular the key set is unchanged). -/
theorem dictGet_applyServeJoin (d : List (String × DeploymentInfo))
    (a : List (String × ActorEntry)) (k : String) :
    dictGet (applyServeJoin d a) k =
      (dictGet a k).map (applyServe (serveFor d k)) := by
  suffices h : ∀ (dd : List (String × DeploymentInfo)) (b : List (String × ActorEntry)),
      dictGet (dd.foldl (fun acc p => innerJoin p.2 acc) b) k =
        (dictGet b k).map
          (applyServe (dd.foldl (fun acc p => serveForIn p.2 k acc) none)) from
    h d a
  intro dd
  induction dd with
  | nil =>
    intro b
    simp only [List.foldl_nil]
    cases dictGet b k <;> simp [applyServe, serveFor]
  | cons p rest ih =>
    intro b
    simp only [List.foldl_cons]
    rw [ih (innerJoin p.2 b), dictGet_innerJoin,
        foldl_or_init _ (fun i q => serveForIn_init q.2 k i) rest
          (serveForIn p.2 k none)]
    cases hb : dictGet b k with
    | none => rfl
    | some e =>
      simp only [Option.map_some']
      exact congrArg some
        (applyServe_or (serveForIn p.2 k none)
          (rest.foldl (fun acc q => serveForIn q.2 k acc) none) e)

/-!
## Characterization of the whole of `get_actor_info`
-/

theorem get_actor_info_eq_foldl (d : List (String × DeploymentInfo))
    (reply : List ActorTableEntry) :
    get_actor_info d reply = reply.foldl (actorLoopStep d) [] := by
  have h : ∀ (l : List ActorTableEntry) (st : List (String × ActorEntry) × Nat),
      (l.foldl (fun st e => (actorLoopStep d st.1 e, st.2 + 1)) st).1 =
        l.foldl (actorLoopStep d) st.1 := by
    intro l
    induction l with
    | nil => intro st; rfl
    | cons e rest ih => intro st; simp only [List.foldl_cons]; exact ih _
  exact h reply ([], 0)

/-- `get_actor_info` awaits the deployment snapshot resolver once per actor
table entry (lines 237-245 sit inside the actor loop). -/
theorem get_serve_info_calls_eq_length (d : List (String × DeploymentInfo))
    (reply : List ActorTableEntry) :
    get_serve_info_calls d reply = reply.length := by
  have h : ∀ (l : List ActorTableEntry) (st : List (String × ActorEntry) × Nat),
      (l.foldl (fun st e => (actorLoopStep d st.1 e, st.2 + 1)) st).2 =
        st.2 + l.length := by
    intro l
    induction l with
    | nil => intro st; simp
    | cons e rest ih =>
      intro st
      simp only [List.foldl_cons, ih, List.length_cons]
      omega
  simpa [get_serve_info_calls, get_actor_info_run] using h reply ([], 0)

/-- Two starting actor dicts whose bindings of `k` agree up to one pending
attachment have, after the raw-insert loop and a final attachment, the same
binding of `k`. -/
theorem dictGet_rawFold_congr (d : List (String × DeploymentInfo)) (k : String)
    (l : List ActorTableEntry) :
    ∀ b c : List (String × ActorEntry),
      (dictGet b k = dictGet c k ∨
        dictGet b k = (dictGet c k).map (applyServe (serveFor d k))) →
      (dictGet (l.foldl (fun a e => dictInsert a e.actor_id (mkEntry e)) b) k).map
          (applyServe (serveFor d k)) =
        (dictGet (l.foldl (fun a e => dictInsert a e.actor_id (mkEntry e)) c) k).map
          (applyServe (serveFor d k)) := by
  induction l with
  | nil =>
    intro b c h
    simp only [List.foldl_nil]
    rcases h with h | h
    · rw [h]
    · rw [h]
      cases hc : dictGet c k with
      | none => rfl
      | some e =>
        simp only [Option.map_some']
        exact congrArg some (applyServe_idem _ e)
  | cons e0 rest ih =>
    intro b c h
    simp only [List.foldl_cons]
    apply ih
    by_cases he : e0.actor_id = k
    · left
      rw [dictGet_dictInsert, dictGet_dictInsert, if_pos he, if_pos he]
    · rcases h with h | h
      · left
        rw [dictGet_dictInsert, dictGet_dictInsert, if_neg he, if_neg he]
        exact h
      · right
        rw [dictGet_dictInsert, dictGet_dictInsert, if_neg he, if_neg he]
        exact h

/-- The loop of `get_actor_info` over a non-empty reply: the binding of every
actor id in the result is the raw-fetch binding with the join's attachment
applied. -/
theorem dictGet_actorLoop (d : List (String × DeploymentInfo)) (k : String)
    (l : List ActorTableEntry) :
    ∀ (e : ActorTableEntry) (a : List (String × ActorEntry)),
      dictGet ((e :: l).foldl (actorLoopStep d) a) k =
        (dictGet ((e :: l).foldl (fun a e => dictInsert a e.actor_id (mkEntry e)) a) k).map
          (applyServe (serveFor d k)) := by
  induction l with
  | nil =>
    intro e a
    simp only [List.foldl_cons, List.foldl_nil]
    exact dictGet_applyServeJoin d _ k
  | cons e2 rest ih =>
    intro e a
    have h1 := ih e2 (actorLoopStep d a e)
    have h2 := dictGet_rawFold_congr d k (e2 :: rest) (actorLoopStep d a e)
      (dictInsert a e.actor_id (mkEntry e))
      (Or.inr (dictGet_applyServeJoin d _ k))
    simp only [List.foldl_cons] at h1 h2 ⊢
    rw [h1, h2]

/-- Main characterization of `get_actor_info` (as coded, with the join pass
repeated inside the actor loop): for every actor id `k`, the returned binding
is the raw-fetch binding with `serveFor deployments k` attached; ids are
neither added nor removed. -/
theorem dictGet_get_actor_info (d : List (String × DeploymentInfo))
    (reply : List ActorTableEntry) (k : String) :
    dictGet (get_actor_info d reply) k =
      (dictGet (rawActors reply) k).map (applyServe (serveFor d k)) := by
  cases reply with
  | nil => rfl
  | cons e l =>
    rw [get_actor_info_eq_foldl]
    exact dictGet_actorLoop d k l e []

/-- Every entry of the raw actor fetch has an empty metadata dict. -/
theorem rawActors_metadata (reply : List ActorTableEntry) :
    ∀ k e, dictGet (rawActors reply) k = some e → e.metadata = [] := by
  suffices h : ∀ (l : List ActorTableEntry) (a : List (String × ActorEntry)),
      (∀ k e, dictGet a k = some e → e.metadata = []) →
      ∀ k e,
        dictGet (l.foldl (fun a e => dictInsert a e.actor_id (mkEntry e)) a) k = some e →
        e.metadata = [] from
    h reply [] (by intro k e hh; simp [dictGet] at hh)
  intro l
  induction l with
  | nil => intro a ha; exact ha
  | cons e0 rest ih =>
    intro a ha
    simp only [List.foldl_cons]
    apply ih
    intro k e h
    rw [dictGet_dictInsert] at h
    by_cases he : e0.actor_id = k
    · rw [if_pos he] at h
      injection h with h2
      subst h2
      rfl
    · rw [if_neg he] at h
      exact ha k e h

/-!
## Activity Classifier: `_get_job_activity_info` and
`get_component_activities` (snapshot_head.py 109-149)
-/

/-- One element of `reply.job_info_list` as read by `_get_job_activity_info`
(snapshot_head.py 135-139): only `is_dead` and `config.ray_namespace` are
consulted (the nested config field is flattened here). -/
structure JobTableEntry where
  is_dead : Bool
  ray_namespace : String
deriving DecidableEq, Repr

/-- Modelled from the spec: `JobInfoStorageClient.JOB_DATA_KEY_PREFIX` is
defined in `ray.dashboard.modules.job.common`, which is not under src/.  The
source comment at snapshot_head.py 129-130 ("Drivers in namespaces that start
with _ray_internal_job_info_ are not considered activity") fixes its value,
and no claim depends on the exact string. -/
def JOB_DATA_KEY_PFX : String := "_ray_internal_job_info_"

/-- Python `str.startswith`: character-list prefix test. -/
def startswith (pre s : String) : Bool :=
  pre.data.isPrefixOf s.data

/-- The counting loop of `_get_job_activity_info` (snapshot_head.py 134-141):
a driver is counted iff it is not dead and its namespace does not start with
the internal job-info prefix. -/
def num_active_drivers (jobs : List JobTableEntry) : Nat :=
  jobs.foldl
    (fun n j =>
      if !j.is_dead && !(startswith JOB_DATA_KEY_PFX j.ray_namespace) then n + 1
      else n)
    0

/-- The `RayActivityResponse` dataclass (snapshot_head.py 28-40).  The
`timestamp` field (`datetime.now().timestamp()`, wall-clock time) is outside
the shallow embedding and carried by no claim, so it is omitted. -/
structure RayActivityResponse where
  is_active : Bool
  reason : Option String
deriving DecidableEq, Repr

/-- `_get_job_activity_info` (snapshot_head.py 127-149) as a function of the
fetched job list:  `is_active = num_active_drivers > 0`; `reason` is the
f-string embedding the count when the count is truthy (non-zero), else
`None`. -/
def _get_job_activity_info (jobs : List JobTableEntry) : RayActivityResponse :=
  let n := num_active_drivers jobs
  { is_active := decide (n > 0)
    reason :=
      if n ≠ 0 then some ("Number of active drivers: " ++ toString n) else none }

/-- Python `int(s)` on a digit string: its base-10 value. -/
def strToInt (s : String) : Nat :=
  s.data.foldl (fun n c => 10 * n + (c.toNat - 48)) 0

/-- Python's truthiness-plus-`str.isdigit` test `timeout and
timeout.isdigit()`: non-empty and all digits.  (Python's `isdigit` also
accepts some exotic Unicode digit categories; only ASCII digits are
modelled.) -/
def isdigit (s : String) : Bool :=
  !s.data.isEmpty && s.data.all Char.isDigit

/-- The timeout parsing of `get_component_activities` (snapshot_head.py
112-116): `req.query.get("timeout", None)`; when the value is truthy and all
digits it becomes `int(timeout)`, anything else falls back to 5. -/
def get_component_activities_timeout (q : Option String) : Nat :=
  match q with
  | none => 5
  | some s => if isdigit s then strToInt s else 5

/-!
## Actor-kill passthrough: `kill_actor_gcs` (snapshot_head.py 56-79)
-/

/-- `req.query.get(name, False) in ("true", "True")` (snapshot_head.py
59-60): an absent parameter yields Python `False`, which is not a member of
the tuple, hence `false`. -/
def parse_bool_flag (q : Option String) : Bool :=
  match q with
  | none => false
  | some s => s == "true" || s == "True"

/-- The `KillActorViaGcsRequest` sent upstream (snapshot_head.py 66-70).
`bytes.fromhex(actor_id)` is modelled by keeping the hex string itself (no
claim concerns invalid hex input). -/
structure KillRequest where
  actor_id_hex : String
  force_kill : Bool
  no_restart : Bool
deriving DecidableEq, Repr

/-- What the `/api/actors/kill` endpoint produces: the `success`/`message`
fields of its `rest_response`, plus the upstream kill request if one was
issued (`none` = `KillActorViaGcs` was never called). -/
structure KillOutcome where
  success : Bool
  message : String
  kill_request : Option KillRequest
deriving DecidableEq, Repr

/-- `kill_actor_gcs` (snapshot_head.py 56-79) as a function of the three
query parameters (`none` = parameter absent).  The flag parsing happens
before the `if not actor_id` check, exactly as in the source; `not actor_id`
is true for an absent parameter and for the empty string. -/
def kill_actor_gcs (actor_id force_kill no_restart : Option String) :
    KillOutcome :=
  let fk := parse_bool_flag force_kill
  let nr := parse_bool_flag no_restart
  match actor_id with
  | none =>
    { success := false, message := "actor_id is required.", kill_request := none }
  | some a =>
    if a = "" then
      { success := false, message := "actor_id is required.", kill_request := none }
    else
      { success := true
        message :=
          if fk then "Force killed actor with id " ++ a
          else "Requested actor with id " ++ a ++ " to terminate. " ++
            "It will exit once running tasks complete"
        kill_request := some { actor_id_hex := a, force_kill := fk, no_restart := nr } }

/-!
## Snapshot orchestrator: `snapshot` (snapshot_head.py 81-107)
-/

/-- The `/api/snapshot` payload dict (snapshot_head.py 96-104).  The job and
job-submission payloads are opaque to every claim; their types are
parameters. -/
structure Snapshot (J JS : Type) where
  jobs : J
  job_submission : JS
  actors : List (String × ActorEntry)
  deployments : List (String × DeploymentInfo)
  session_name : String
  ray_version : String
  ray_commit : String

/-- The `snapshot` orchestrator (snapshot_head.py 81-107): await the five
concurrent fetches via `asyncio.gather`, then assemble the payload.  A fetch
that raises is an `Except.error`; `asyncio.gather` re-raises the first
exception raised by its awaitables, modelled here as propagating the first
error in argument order (a deterministic stand-in for chronological order;
when exactly one fetch fails the two coincide). -/
def snapshot {ε J JS : Type} (job_info : Except ε J)
    (job_submission_data : Except ε JS)
    (actor_data : Except ε (List (String × ActorEntry)))
    (serve_data : Except ε (List (String × DeploymentInfo)))
    (session_name : Except ε String)
    (ray_version ray_commit : String) : Except ε (Snapshot J JS) := do
  let ji ← job_info
  let js ← job_submission_data
  let ad ← actor_data
  let sd ← serve_data
  let sn ← session_name
  Except.ok
    { jobs := ji
      job_submission := js
      actors := ad
      deployments := sd
      session_name := sn
      ray_version := ray_version
      ray_commit := ray_commit }

/-!
## Concrete sample values (used by witness and counterexample theorems)
-/

def sampleJson : Json := Json.obj []

def sampleActor1 : ActorTableEntry :=
  { actor_id := "a1"
    job_id := "j1"
    state := "ALIVE"
    name := "actor-one"
    ray_namespace := "default"
    runtime_env := sampleJson
    start_time := 1
    end_time := 0
    is_detached := false
    required_resources := [("CPU", 1)]
    class_name := "Worker"
    worker_id := "w1"
    raylet_id := "r1"
    ip_address := "10.0.0.1"
    port := 1234 }

def sampleActor2 : ActorTableEntry :=
  { actor_id := "a2"
    job_id := "j1"
    state := "ALIVE"
    name := "actor-two"
    ray_namespace := "default"
    runtime_env := sampleJson
    start_time := 2
    end_time := 0
    is_detached := true
    required_resources := []
    class_name := "Worker"
    worker_id := "w2"
    raylet_id := "r2"
    ip_address := "10.0.0.2"
    port := 1235 }

def sampleReplica : ReplicaInfo := { replica_tag := "t", version := "v" }

def sampleDeployment : DeploymentInfo :=
  { name := "svc", actors := [("a1", sampleReplica)] }

def sampleDeployments : List (String × DeploymentInfo) :=
  [("svchash", sampleDeployment)]

def sampleDeploymentV1 : DeploymentInfo :=
  { name := "svc", actors := [("a1", { replica_tag := "t", version := "v1" })] }

def sampleDeploymentV2 : DeploymentInfo :=
  { name := "svc", actors := [("a1", { replica_tag := "t", version := "v2" })] }

def sampleKvget : String → Option RawVal := fun k =>
  if k = "SERVE_CONTROLLER_ACTOR-AAAA:serve-deployments-snapshot" then
    some (RawVal.obj [("svc", sampleDeploymentV1)])
  else if k = "SERVE_CONTROLLER_ACTOR-BBBB:serve-deployments-snapshot" then
    some (RawVal.obj [("svc", sampleDeploymentV2)])
  else none

/-!
## Supporting lemmas for the activity classifier
-/

theorem num_active_drivers_eq_countP (jobs : List JobTableEntry) :
    num_active_drivers jobs =
      jobs.countP
        (fun j => !j.is_dead && !(startswith JOB_DATA_KEY_PFX j.ray_namespace)) := by
  have h : ∀ (l : List JobTableEntry) (n : Nat),
      l.foldl
        (fun n j =>
          if !j.is_dead && !(startswith JOB_DATA_KEY_PFX j.ray_namespace) then n + 1
          else n)
        n =
        n + l.countP
          (fun j => !j.is_dead && !(startswith JOB_DATA_KEY_PFX j.ray_namespace)) := by
    intro l
    induction l with
    | nil => intro n; simp
    | cons j rest ih =>
      intro n
      simp only [List.foldl_cons, List.countP_cons]
      by_cases hj :
          (!j.is_dead && !(startswith JOB_DATA_KEY_PFX j.ray_namespace)) = true
      · rw [if_pos hj, ih, if_pos hj]
        omega
      · rw [if_neg hj, ih, if_neg hj]
        omega
  simpa [num_active_drivers] using h jobs 0

theorem num_active_drivers_eq_zero (jobs : List JobTableEntry) :
    num_active_drivers jobs = 0 ↔
      ∀ j ∈ jobs,
        j.is_dead = true ∨ startswith JOB_DATA_KEY_PFX j.ray_namespace = true := by
  rw [num_active_drivers_eq_countP, List.countP_eq_zero]
  constructor
  · intro h j hj
    have hx := h j hj
    rcases Bool.eq_false_or_eq_true j.is_dead with hd | hd
    · exact Or.inl hd
    · rcases Bool.eq_false_or_eq_true
        (startswith JOB_DATA_KEY_PFX j.ray_namespace) with hp | hp
      · exact Or.inr hp
      · exact absurd (by simp [hd, hp]) hx
  · intro h j hj
    rcases h j hj with hd | hp
    · simp [hd]
    · simp [hp]

/-!
## Claim theorems
-/

/-- C3: for every snapshot request, if any one of the four top-level fetches
(job info, job-submission info, actor info, session name) raises — the others
succeeding — the entire request fails with that same error and no snapshot
payload is returned. -/
theorem C3_no_partial_snapshot {ε J JS : Type} (e : ε)
    (ji : Except ε J) (js : Except ε JS)
    (ad : Except ε (List (String × ActorEntry)))
    (sd : Except ε (List (String × DeploymentInfo)))
    (sn : Except ε String) (v c : String)
    (h :
      (ji = Except.error e ∧ (∃ b, js = Except.ok b) ∧ (∃ x, ad = Except.ok x) ∧
        (∃ y, sd = Except.ok y) ∧ (∃ z, sn = Except.ok z)) ∨
      ((∃ a, ji = Except.ok a) ∧ js = Except.error e ∧ (∃ x, ad = Except.ok x) ∧
        (∃ y, sd = Except.ok y) ∧ (∃ z, sn = Except.ok z)) ∨
      ((∃ a, ji = Except.ok a) ∧ (∃ b, js = Except.ok b) ∧ ad = Except.error e ∧
        (∃ y, sd = Except.ok y) ∧ (∃ z, sn = Except.ok z)) ∨
      ((∃ a, ji = Except.ok a) ∧ (∃ b, js = Except.ok b) ∧ (∃ x, ad = Except.ok x) ∧
        (∃ y, sd = Except.ok y) ∧ sn = Except.error e)) :
    snapshot ji js ad sd sn v c = Except.error e ∧
    ∀ p, snapshot ji js ad sd sn v c ≠ Except.ok p := by
  have heq : snapshot ji js ad sd sn v c = Except.error e := by
    rcases h with
      ⟨h1, ⟨b, h2⟩, ⟨x, h3⟩, ⟨y, h4⟩, ⟨z, h5⟩⟩ |
      ⟨⟨a, h1⟩, h2, ⟨x, h3⟩, ⟨y, h4⟩, ⟨z, h5⟩⟩ |
      ⟨⟨a, h1⟩, ⟨b, h2⟩, h3, ⟨y, h4⟩, ⟨z, h5⟩⟩ |
      ⟨⟨a, h1⟩, ⟨b, h2⟩, ⟨x, h3⟩, ⟨y, h4⟩, h5⟩ <;>
    subst h1 <;> subst h2 <;> subst h3 <;> subst h4 <;> subst h5 <;> rfl
  exact ⟨heq, fun p hp => by rw [heq] at hp; exact Except.noConfusion hp⟩

theorem C3_no_partial_snapshot_witness :
    snapshot (Except.error "boom" : Except String Nat) (Except.ok (0 : Nat))
      (Except.ok ([] : List (String × ActorEntry)))
      (Except.ok ([] : List (String × DeploymentInfo)))
      (Except.ok "session") "2.0.0" "abc" =
      Except.error "boom" :=
  (C3_no_partial_snapshot "boom" (Except.error "boom" : Except String Nat)
    (Except.ok (0 : Nat))
    (Except.ok []) (Except.ok []) (Except.ok "session") "2.0.0" "abc"
    (Or.inl ⟨rfl, ⟨0, rfl⟩, ⟨[], rfl⟩, ⟨[], rfl⟩, ⟨"session", rfl⟩⟩)).1

/-- C4: the activity classifier reports `is_active = false` with no reason
exactly when every fetched job is dead or lives in a namespace starting with
the internal job-info prefix; otherwise it reports `is_active = true` with a
reason string embedding the active-driver count. -/
theorem C4_activity_classifier (jobs : List JobTableEntry) :
    (((_get_job_activity_info jobs).is_active = false ∧
        (_get_job_activity_info jobs).reason = none) ↔
      ∀ j ∈ jobs,
        j.is_dead = true ∨ startswith JOB_DATA_KEY_PFX j.ray_namespace = true) ∧
    (¬ (∀ j ∈ jobs,
          j.is_dead = true ∨ startswith JOB_DATA_KEY_PFX j.ray_namespace = true) →
      (_get_job_activity_info jobs).is_active = true ∧
      (_get_job_activity_info jobs).reason =
        some ("Number of active drivers: " ++ toString (num_active_drivers jobs))) := by
  constructor
  · constructor
    · rintro ⟨ha, -⟩
      apply (num_active_drivers_eq_zero jobs).mp
      simp only [_get_job_activity_info] at ha
      simpa using ha
    · intro hall
      have h0 : num_active_drivers jobs = 0 :=
        (num_active_drivers_eq_zero jobs).mpr hall
      simp [_get_job_activity_info, h0]
  · intro hnall
    have h0 : num_active_drivers jobs ≠ 0 :=
      fun h => hnall ((num_active_drivers_eq_zero jobs).mp h)
    constructor
    · simp [_get_job_activity_info]
      omega
    · simp [_get_job_activity_info, h0]

theorem C4_activity_classifier_witness :
    (_get_job_activity_info
      [⟨true, "user"⟩, ⟨false, "user"⟩, ⟨false, "_ray_internal_job_info_x"⟩]).is_active
        = true ∧
    (_get_job_activity_info
      [⟨true, "user"⟩, ⟨false, "user"⟩, ⟨false, "_ray_internal_job_info_x"⟩]).reason
        = some "Number of active drivers: 1" := by
  have h :=
    (C4_activity_classifier
      [⟨true, "user"⟩, ⟨false, "user"⟩, ⟨false, "_ray_internal_job_info_x"⟩]).2
      (by decide)
  refine ⟨h.1, ?_⟩
  rw [h.2]
  decide

/-- C7: the activity endpoint's timeout equals `int(s)` when the `timeout`
query parameter is a non-empty all-digit string, and 5 when the parameter is
absent or not such a string. -/
theorem C7_timeout_parsing (q : Option String) :
    (q = none → get_component_activities_timeout q = 5) ∧
    (∀ s, q = some s →
      (isdigit s = true → get_component_activities_timeout q = strToInt s) ∧
      (isdigit s = false → get_component_activities_timeout q = 5)) := by
  cases q with
  | none =>
    refine ⟨fun _ => rfl, ?_⟩
    intro s hs
    simp at hs
  | some t =>
    refine ⟨fun h => by simp at h, ?_⟩
    intro s hs
    injection hs with hts
    subst hts
    constructor
    · intro h1
      simp [get_component_activities_timeout, h1]
    · intro h1
      simp [get_component_activities_timeout, h1]

theorem C7_timeout_parsing_witness :
    get_component_activities_timeout (some "120") = 120 ∧
    get_component_activities_timeout (some "12.5") = 5 ∧
    get_component_activities_timeout none = 5 := by
  refine ⟨?_, ?_, (C7_timeout_parsing none).1 rfl⟩
  · have h := ((C7_timeout_parsing (some "120")).2 "120" rfl).1 (by decide)
    rw [h]
    decide
  · exact ((C7_timeout_parsing (some "12.5")).2 "12.5" rfl).2 (by decide)

/-- C8: the boolean query flags of the actor-kill endpoint parse to `true`
exactly for the strings `"true"` and `"True"`; every other value (including
`"TRUE"`, `"1"`, `"yes"`) and an absent parameter parse to `false`. -/
theorem C8_bool_flag_exact_match (q : Option String) :
    parse_bool_flag q = true ↔ q = some "true" ∨ q = some "True" := by
  cases q with
  | none => simp [parse_bool_flag]
  | some s => simp [parse_bool_flag]

theorem C8_bool_flag_exact_match_witness :
    parse_bool_flag (some "true") = true ∧
    parse_bool_flag (some "True") = true ∧
    parse_bool_flag (some "TRUE") = false ∧
    parse_bool_flag (some "1") = false ∧
    parse_bool_flag (some "yes") = false ∧
    parse_bool_flag none = false :=
  ⟨(C8_bool_flag_exact_match (some "true")).mpr (Or.inl rfl),
   (C8_bool_flag_exact_match (some "True")).mpr (Or.inr rfl),
   by decide, by decide, by decide, rfl⟩

/-- C9: an actor-kill request with an absent or empty `actor_id` returns
`success = False` with message `"actor_id is required."` and issues no
upstream kill call. -/
theorem C9_missing_actor_id (actor_id force_kill no_restart : Option String)
    (h : actor_id = none ∨ actor_id = some "") :
    (kill_actor_gcs actor_id force_kill no_restart).success = false ∧
    (kill_actor_gcs actor_id force_kill no_restart).message = "actor_id is required." ∧
    (kill_actor_gcs actor_id force_kill no_restart).kill_request = none := by
  rcases h with h | h <;> subst h <;> simp [kill_actor_gcs]

theorem C9_missing_actor_id_witness :
    (kill_actor_gcs none (some "true") (some "x")).success = false ∧
    (kill_actor_gcs none (some "true") (some "x")).message = "actor_id is required." ∧
    (kill_actor_gcs none (some "true") (some "x")).kill_request = none :=
  C9_missing_actor_id none (some "true") (some "x") (Or.inl rfl)

/-- C1: contrary to the claim, `get_actor_info` does not call the deployment
snapshot resolver exactly once after the raw actor set is fetched: lines
237-245 of snapshot_head.py sit inside the `for actor_table_entry` loop, so
the resolver is awaited once per actor table entry — twice for a two-actor
reply (and zero times for an empty one), never exactly once. -/
theorem C1_resolver_called_per_actor :
    get_serve_info_calls sampleDeployments [sampleActor1, sampleActor2] = 2 ∧
    get_serve_info_calls sampleDeployments [sampleActor1, sampleActor2] ≠ 1 := by
  constructor
  · rw [get_serve_info_calls_eq_length]
    decide
  · rw [get_serve_info_calls_eq_length]
    decide

/-- C2 counterexample: the claim says a malformed deployment snapshot value
is treated as an empty JSON object and the resolver never raises a decode
error; but `get_deployments` calls `json.loads` on any non-empty value with
no handler, so a matched key holding malformed JSON raises and the error
propagates out of `get_serve_info`. -/
theorem C2_decode_error_counterexample :
    get_serve_info ["SERVE_CONTROLLER_ACTOR:serve-deployments-snapshot"]
      (fun _ => some RawVal.malformed) =
      Except.error SnapshotErr.jsonDecode := by
  rfl

/-- Every scanned key whose value is not malformed parses successfully. -/
theorem loadAll_ok (kvget : String → Option RawVal) :
    ∀ l : List String, (∀ k ∈ l, kvget k ≠ some RawVal.malformed) →
      ∃ ds, loadAll kvget l = Except.ok ds := by
  intro l
  induction l with
  | nil => exact fun _ => ⟨[], rfl⟩
  | cons k ks ih =>
    intro h
    obtain ⟨ds, hds⟩ := ih (fun x hx => h x (List.mem_cons_of_mem _ hx))
    have hk := h k (List.mem_cons_self k ks)
    cases hv : kvget k with
    | none =>
      refine ⟨[] :: ds, ?_⟩
      simp only [loadAll, hv, hds]
      rfl
    | some r =>
      cases r with
      | empty =>
        refine ⟨[] :: ds, ?_⟩
        simp only [loadAll, hv, hds]
        rfl
      | obj es =>
        refine ⟨es :: ds, ?_⟩
        simp only [loadAll, hv, hds]
        rfl
      | malformed => exact absurd hv hk

/-- C2 amended: a missing or empty deployment snapshot value is treated as
the empty JSON object and recovered locally, and the resolver raises no
decode error as long as no matched value is malformed; a malformed non-empty
value, however, raises a decode error that propagates (see the
counterexample). -/
theorem C2_missing_empty_recovered (serve_keys : List String)
    (kvget : String → Option RawVal)
    (h : ∀ k ∈ serve_keys, kvget k ≠ some RawVal.malformed) :
    json_loads (valOrDefault none) = Except.ok [] ∧
    json_loads (valOrDefault (some RawVal.empty)) = Except.ok [] ∧
    ∃ r, get_serve_info serve_keys kvget = Except.ok r := by
  refine ⟨rfl, rfl, ?_⟩
  obtain ⟨ds, hds⟩ :=
    loadAll_ok kvget
      (serve_keys.filter (fun k => strContains SERVE_SNAPSHOT_KEY k))
      (fun k hk => h k (List.mem_of_mem_filter hk))
  refine ⟨hashDeployments (mergeDeployments ds), ?_⟩
  simp only [get_serve_info, hds]
  rfl

theorem C2_missing_empty_recovered_witness :
    json_loads (valOrDefault none) = Except.ok [] ∧
    json_loads (valOrDefault (some RawVal.empty)) = Except.ok [] ∧
    ∃ r, get_serve_info ["SERVE_CONTROLLER_ACTOR:serve-deployments-snapshot"]
      (fun _ => none) = Except.ok r :=
  C2_missing_empty_recovered ["SERVE_CONTROLLER_ACTOR:serve-deployments-snapshot"]
    (fun _ => none) (by intro k hk; simp)

/-- C5: when two scanned controller snapshot keys both define the same
deployment name with different contents, the resolver's final mapping binds
the SHA-1 hex digest of that name to the value from the later key in scan
order (the key-list order of the KV scan). -/
theorem C5_merge_last_write_wins (k1 k2 name : String)
    (v1 v2 : DeploymentInfo) (kvget : String → Option RawVal)
    (h1 : strContains SERVE_SNAPSHOT_KEY k1 = true)
    (h2 : strContains SERVE_SNAPSHOT_KEY k2 = true)
    (hv1 : kvget k1 = some (RawVal.obj [(name, v1)]))
    (hv2 : kvget k2 = some (RawVal.obj [(name, v2)]))
    (hne : v1 ≠ v2) :
    get_serve_info [k1, k2] kvget = Except.ok [(sha1_hexdigest name, v2)] := by
  have hfilter :
      List.filter (fun k => strContains SERVE_SNAPSHOT_KEY k) [k1, k2] = [k1, k2] := by
    simp [List.filter_cons, h1, h2]
  simp only [get_serve_info, hfilter, loadAll, hv1, hv2]
  show Except.ok (hashDeployments (mergeDeployments [[(name, v1)], [(name, v2)]])) =
    Except.ok [(sha1_hexdigest name, v2)]
  simp [mergeDeployments, hashDeployments, dictInsert]

theorem C5_merge_last_write_wins_witness :
    get_serve_info
      ["SERVE_CONTROLLER_ACTOR-AAAA:serve-deployments-snapshot",
       "SERVE_CONTROLLER_ACTOR-BBBB:serve-deployments-snapshot"]
      sampleKvget =
      Except.ok [(sha1_hexdigest "svc", sampleDeploymentV2)] :=
  C5_merge_last_write_wins
    "SERVE_CONTROLLER_ACTOR-AAAA:serve-deployments-snapshot"
    "SERVE_CONTROLLER_ACTOR-BBBB:serve-deployments-snapshot"
    "svc" sampleDeploymentV1 sampleDeploymentV2 sampleKvget
    (by decide) (by decide) (by decide) (by decide) (by decide)

/-- C6: the Actor × Deployment join is a pure function of the frozen actor
map and deployment mapping (it is a total Lean function of exactly those two
arguments and returns a new actor map, leaving the deployment data
untouched), and re-running the join on its own output changes nothing: the
output maps are equal as dicts (same binding for every key). -/
theorem C6_join_idempotent (d : List (String × DeploymentInfo))
    (a : List (String × ActorEntry)) (k : String) :
    dictGet (applyServeJoin d (applyServeJoin d a)) k =
      dictGet (applyServeJoin d a) k := by
  rw [dictGet_applyServeJoin, dictGet_applyServeJoin]
  cases dictGet a k with
  | none => rfl
  | some e =>
    simp only [Option.map_some']
    exact congrArg some (applyServe_idem _ e)

/-- C10: `get_actor_info` returns exactly the raw-fetch actor dict except
that an actor whose id occurs as a replica actor id of some deployment gets
its serve metadata stored under the `"serve"` key of its metadata dict; every
other field of every entry keeps its raw-fetch value, no entry is added or
removed, and an actor referenced by no deployment ends with an empty metadata
dict. -/
theorem C10_join_frame (d : List (String × DeploymentInfo))
    (reply : List ActorTableEntry) (k : String) :
    ((dictGet (get_actor_info d reply) k).isSome ↔
      (dictGet (rawActors reply) k).isSome) ∧
    (∀ e, dictGet (get_actor_info d reply) k = some e →
      ∃ e0, dictGet (rawActors reply) k = some e0 ∧
        e.job_id = e0.job_id ∧ e.state = e0.state ∧ e.name = e0.name ∧
        e.ray_namespace = e0.ray_namespace ∧ e.runtime_env = e0.runtime_env ∧
        e.start_time = e0.start_time ∧ e.end_time = e0.end_time ∧
        e.is_detached = e0.is_detached ∧ e.resources = e0.resources ∧
        e.actor_class = e0.actor_class ∧
        e.current_worker_id = e0.current_worker_id ∧
        e.current_raylet_id = e0.current_raylet_id ∧
        e.ip_address = e0.ip_address ∧ e.port = e0.port ∧
        ((∃ s, serveFor d k = some s ∧ e.metadata = [("serve", s)]) ∨
          (serveFor d k = none ∧ e.metadata = []))) := by
  have hchar := dictGet_get_actor_info d reply k
  constructor
  · rw [hchar]
    cases dictGet (rawActors reply) k <;> simp
  · intro e he
    rw [hchar] at he
    cases h0 : dictGet (rawActors reply) k with
    | none => rw [h0] at he; simp at he
    | some e0 =>
      rw [h0] at he
      simp only [Option.map_some'] at he
      injection he with he2
      have hmeta := rawActors_metadata reply k e0 h0
      refine ⟨e0, rfl, ?_⟩
      subst he2
      cases hs : serveFor d k with
      | none =>
        exact ⟨rfl, rfl, rfl, rfl, rfl, rfl, rfl, rfl, rfl, rfl, rfl, rfl,
          rfl, rfl, Or.inr ⟨rfl, hmeta⟩⟩
      | some s =>
        refine ⟨rfl, rfl, rfl, rfl, rfl, rfl, rfl, rfl, rfl, rfl, rfl, rfl,
          rfl, rfl, Or.inl ⟨s, rfl, ?_⟩⟩
        show dictInsert e0.metadata "serve" s = [("serve", s)]
        rw [hmeta]
        rfl

theorem C10_join_frame_witness :
    ∃ e0, dictGet (rawActors [sampleActor1, sampleActor2]) "a1" = some e0 ∧
      (setServe (mkEntry sampleActor1)
          { replica_tag := "t", deployment_name := "svc", version := "v" }).job_id
        = e0.job_id ∧
      (setServe (mkEntry sampleActor1)
          { replica_tag := "t", deployment_name := "svc", version := "v" }).metadata
        = [("serve",
            { replica_tag := "t", deployment_name := "svc", version := "v" })] := by
  obtain ⟨e0, h0, hjob, -, -, -, -, -, -, -, -, -, -, -, -, -, hmeta⟩ :=
    (C10_join_frame sampleDeployments [sampleActor1, sampleActor2] "a1").2
      (setServe (mkEntry sampleActor1)
        { replica_tag := "t", deployment_name := "svc", version := "v" })
      rfl
  refine ⟨e0, h0, hjob, ?_⟩
  rcases hmeta with ⟨s, hs, hm⟩ | ⟨hs, -⟩
  · have hse : s = { replica_tag := "t", deployment_name := "svc", version := "v" } := by
      have hsv : serveFor sampleDeployments "a1" =
          some { replica_tag := "t", deployment_name := "svc", version := "v" } := rfl
      rw [hsv] at hs
      injection hs with h
      exact h.symm
    rw [hse] at hm
    exact hm
  · rw [show serveFor sampleDeployments "a1" =
        some { replica_tag := "t", deployment_name := "svc", version := "v" } from rfl] at hs
    exact Option.noConfusion hs

end SnapshotHead
